import Mathlib

/-!
# Verification of the DecoSolution airline-passenger server tools

Shallow embedding of the data-access layer of the DecoSolution repository
(`server/schema.ts` and `server/tools.ts`): a todos table and a passengers
table with CRUD tools, CSV ingestion, and a statistics aggregation.

Modelling conventions:
* SQLite rows become Lean structures; nullable columns become `Option`.
* The store is a `List` of rows; each tool is a pure function from the
  store (and its input) to the new store and its result.  A thrown
  JavaScript `Error` becomes `Except.error` carrying the message string;
  when an operation throws, it returns the store unchanged (the failing
  statement never ran).
* JavaScript string/number idioms (`x || d`, truthiness, `String(x)`,
  `split`, `trim`, `parseFloat`, `Math.round`) are modelled by the
  `js...` helpers below.  JavaScript numbers are idealised as `Rat`
  (exact arithmetic; the non-finite values are not modelled).
* Row ids are assigned as successor of the maximum existing id, modelling
  the SQLite integer-primary-key assignment.
-/

/-! ## JavaScript string and number semantics -/

/-- The whitespace characters recognised by `String.prototype.trim` that
occur in this code base. -/
def isJsWhitespace (c : Char) : Bool :=
  c = ' ' || c = '\t' || c = '\n' || c = '\r'

/-- `split` on a single separator character, as a structural recursion on
the character list.  `[] ↦ [[]]` matches the JavaScript behaviour
`"".split(sep) === [""]`. -/
def splitOnChar (sep : Char) : List Char → List (List Char)
  | [] => [[]]
  | c :: cs =>
    let r := splitOnChar sep cs
    if c = sep then [] :: r
    else
      match r with
      | [] => [[c]]
      | h :: t => (c :: h) :: t

/-- JavaScript `s.split(sep)` for a one-character separator. -/
def jsSplit (sep : Char) (s : String) : List String :=
  (splitOnChar sep s.data).map String.mk

/-- JavaScript `s.trim()`. -/
def jsTrim (s : String) : String :=
  String.mk (((s.data.dropWhile isJsWhitespace).reverse.dropWhile isJsWhitespace).reverse)

/-- JavaScript truthiness of a string: every string except `""` is truthy. -/
def jsTruthyStr (s : String) : Bool :=
  s ≠ ""

/-- JavaScript truthiness of a nullable string (`null` and `""` are falsy). -/
def jsTruthyOptStr (v : Option String) : Bool :=
  match v with
  | none => false
  | some s => s ≠ ""

/-- JavaScript `String(x)` for a possibly-undefined string `x`
(`String(undefined) === "undefined"`). -/
def jsStringCoerce (v : Option String) : String :=
  match v with
  | none => "undefined"
  | some s => s

/-- JavaScript `x || ""` for a possibly-undefined string `x`. -/
def jsOrEmpty (v : Option String) : String :=
  match v with
  | none => ""
  | some s => s

/-- JavaScript `x || null` for a possibly-undefined string `x`
(an empty string collapses to `null`). -/
def jsOrNull (v : Option String) : Option String :=
  match v with
  | none => none
  | some s => if s = "" then none else some s

/-- JavaScript `x || d` for a possibly-undefined string `x` and a
non-empty string default `d`. -/
def jsOrDefault (v : Option String) (d : String) : Option String :=
  match v with
  | none => some d
  | some s => if s = "" then some d else some s

/-- JavaScript `x || d` producing a plain string from a nullable column
value (used as `passenger.ticketClass || "unknown"`). -/
def jsOrOptStr (v : Option String) (d : String) : String :=
  match v with
  | none => d
  | some s => if s = "" then d else s

/-- JavaScript `x || d` producing a plain string from a non-nullable
column value (used as `passenger.flightNumber || "unknown"`). -/
def jsOrStr (s : String) (d : String) : String :=
  if s = "" then d else s

/-- Digit-list to natural number. -/
def digitsToNat (cs : List Char) : Nat :=
  cs.foldl (fun a c => a * 10 + (c.toNat - 48)) 0

/-- The optional exponent part accepted by `parseFloat` after the
mantissa (an `e`/`E`, an optional sign, digits); anything else
contributes exponent `0`. -/
def parseFloatExponent (cs : List Char) : Int :=
  let signedPart :=
    match cs with
    | 'e' :: r => some r
    | 'E' :: r => some r
    | _ => none
  match signedPart with
  | none => 0
  | some r =>
    let (sgn, ds) :=
      match r with
      | '-' :: r2 => ((-1 : Int), r2)
      | '+' :: r2 => ((1 : Int), r2)
      | _ => ((1 : Int), r)
    let eds := ds.takeWhile Char.isDigit
    if eds.isEmpty then 0 else sgn * (digitsToNat eds : Int)

/-- JavaScript `parseFloat`: skip leading whitespace, parse the longest
prefix that is a signed decimal literal, ignore the rest; `none` models
`NaN`.  Values are idealised as exact rationals; the literals `Infinity`
and `-Infinity` are outside the model. -/
def jsParseFloat (s : String) : Option Rat :=
  let cs := s.data.dropWhile isJsWhitespace
  let (sgn, cs1) :=
    match cs with
    | '-' :: r => ((-1 : Int), r)
    | '+' :: r => ((1 : Int), r)
    | _ => ((1 : Int), cs)
  let intDigits := cs1.takeWhile Char.isDigit
  let cs2 := cs1.dropWhile Char.isDigit
  let (fracDigits, cs3) :=
    match cs2 with
    | '.' :: r => (r.takeWhile Char.isDigit, r.dropWhile Char.isDigit)
    | _ => (([] : List Char), cs2)
  if intDigits.isEmpty && fracDigits.isEmpty then none
  else
    let mantissa : Rat :=
      (digitsToNat intDigits : Rat) + (digitsToNat fracDigits : Rat) / ((10 : Rat) ^ fracDigits.length)
    some ((sgn : Rat) * mantissa * (10 : Rat) ^ parseFloatExponent cs3)

/-- JavaScript `Math.round` (half rounds towards positive infinity). -/
def jsRound (q : Rat) : Int :=
  ⌊q + 1 / 2⌋

/-- `Math.round(x * 100) / 100`: round to two decimal places. -/
def round2 (q : Rat) : Rat :=
  ((jsRound (q * 100) : Int) : Rat) / 100

/-! ## The todos table (`schema.ts`) and its tools (`tools.ts`) -/

/-- A row of the `todos` table: `id` integer primary key, `title` nullable
text, `completed` nullable integer with default `0`. -/
structure Todo where
  id : Int
  title : Option String
  completed : Option Int
deriving Repr, DecidableEq

/-- The todo object returned by the todo tools (`completed` decoded to a
boolean by `completed === 1`). -/
structure TodoOut where
  id : Int
  title : Option String
  completed : Bool
deriving Repr, DecidableEq

/-- Output of `DELETE_TODO`. -/
structure DeleteResult where
  success : Bool
  deletedId : Int
deriving Repr, DecidableEq

/-- Id assigned to a freshly inserted todo row (SQLite integer primary
key: one more than the largest existing id). -/
def nextTodoId (todos : List Todo) : Int :=
  (todos.map Todo.id).foldl max 0 + 1

/-- `GENERATE_TODO_WITH_AI` (`tools.ts`), parameterised by the title the
external text-generation collaborator returned (`none` models an absent
`object.title`).  The code runs
`const generatedTodoTitle = String(generatedTodo.object?.title)` and
throws `"Failed to generate todo"` when that string is falsy, before any
insert; otherwise it inserts `{title, completed: 0}` and returns the new
row. -/
def generateTodo (aiTitle : Option String) (todos : List Todo) :
    List Todo × Except String TodoOut :=
  let generatedTodoTitle := jsStringCoerce aiTitle
  if generatedTodoTitle = "" then
    (todos, Except.error "Failed to generate todo")
  else
    let newId := nextTodoId todos
    (todos ++ [{ id := newId, title := some generatedTodoTitle, completed := some 0 }],
     Except.ok { id := newId, title := some generatedTodoTitle, completed := false })

/-- The flipped `completed` value computed by `TOGGLE_TODO`:
`currentTodo[0].completed === 1 ? 0 : 1`. -/
def toggledOf (cur : Todo) : Int :=
  if cur.completed = some 1 then 0 else 1

/-- `TOGGLE_TODO` (`tools.ts`): select the row by id (`none` result throws
`"Todo not found"`), flip `completed`, update every row matching the id,
return the updated row with `completed` decoded as `=== 1`. -/
def toggleTodo (i : Int) (todos : List Todo) : List Todo × Except String TodoOut :=
  match todos.find? (fun u => u.id = i) with
  | none => (todos, Except.error "Todo not found")
  | some cur =>
    (todos.map (fun u => if u.id = i then { u with completed := some (toggledOf cur) } else u),
     Except.ok { id := cur.id, title := cur.title, completed := toggledOf cur == 1 })

/-- `DELETE_TODO` (`tools.ts`): select the row by id (`none` result throws
`"Todo not found"`), delete every row matching the id, return
`{success: true, deletedId}`. -/
def deleteTodo (i : Int) (todos : List Todo) : List Todo × Except String DeleteResult :=
  match todos.find? (fun u => u.id = i) with
  | none => (todos, Except.error "Todo not found")
  | some _ =>
    (todos.filter (fun u => u.id ≠ i), Except.ok { success := true, deletedId := i })

/-! ## Shared list lemmas -/

/-- In a list of todos with pairwise-distinct ids, `find?` by the id of a
member returns exactly that member. -/
theorem find_todo_by_id (l : List Todo) (t : Todo)
    (hnd : (l.map Todo.id).Nodup) (hmem : t ∈ l) :
    l.find? (fun u => u.id = t.id) = some t := by
  induction l with
  | nil => cases hmem
  | cons a l ih =>
    simp only [List.map_cons, List.nodup_cons] at hnd
    rcases List.mem_cons.mp hmem with rfl | hmem2
    · simp [List.find?_cons]
    · have hne : a.id ≠ t.id := by
        intro he
        exact hnd.1 (he ▸ List.mem_map_of_mem Todo.id hmem2)
      rw [List.find?_cons, decide_eq_false hne]
      exact ih hnd.2 hmem2

/-- In a list of todos with pairwise-distinct ids, two members with the
same id are equal. -/
theorem todo_id_injective (l : List Todo) (hnd : (l.map Todo.id).Nodup)
    {u t : Todo} (hu : u ∈ l) (ht : t ∈ l) (hid : u.id = t.id) : u = t :=
  List.inj_on_of_nodup_map hnd hu ht hid

/-! ## Claim theorems about the todo tools -/

/-- Claim C2: for every store state, when the external text-generation
collaborator returns an empty title, `generateTodo` fails with the
generation error (`"Failed to generate todo"`, thrown before the insert
statement) and the todos table is unchanged: no row is inserted. -/
theorem generateTodo_empty_title_fails (todos : List Todo) :
    generateTodo (some "") todos = (todos, Except.error "Failed to generate todo") := rfl

/-- Claim C8: for every store state and every id not present in the todos
table, `deleteTodo` fails with the not-found error and returns the store
unchanged; it never returns a success result. -/
theorem deleteTodo_absent_fails (todos : List Todo) (i : Int)
    (habs : ∀ t ∈ todos, t.id ≠ i) :
    deleteTodo i todos = (todos, Except.error "Todo not found") := by
  unfold deleteTodo
  have hnone : todos.find? (fun u => u.id = i) = none := by
    rw [List.find?_eq_none]
    intro t ht
    simpa using habs t ht
  rw [hnone]

/-- A sample todo row used to instantiate hypotheses of the todo claims. -/
def todo0 : Todo := { id := 1, title := some "buy milk", completed := some 0 }

/-- Witness for claim C8 at a concrete store and id. -/
theorem deleteTodo_absent_fails_witness :
    deleteTodo 2 [todo0] = ([todo0], Except.error "Todo not found") :=
  deleteTodo_absent_fails [todo0] 2 (by decide)

/-- The row update performed by the toggle statement: rows matching the
id get the flipped `completed` value, others are untouched. -/
def flipRow (i c : Int) (u : Todo) : Todo :=
  if u.id = i then { u with completed := some c } else u

/-- `toggleTodo` at the id of a member of a duplicate-free store: the
update maps `flipRow` over the store and returns the flipped row. -/
theorem toggleTodo_found (todos : List Todo) (t : Todo)
    (hnd : (todos.map Todo.id).Nodup) (hmem : t ∈ todos) :
    toggleTodo t.id todos =
      (todos.map (flipRow t.id (toggledOf t)),
       Except.ok { id := t.id, title := t.title, completed := toggledOf t == 1 }) := by
  unfold toggleTodo
  rw [find_todo_by_id todos t hnd hmem]
  rfl

/-- `flipRow` keeps every id. -/
theorem flipRow_id (i c : Int) (u : Todo) : (flipRow i c u).id = u.id := by
  unfold flipRow
  by_cases h : u.id = i <;> simp [h]

/-- Double toggle restores the store, given that double-flipping the
target row is the identity on it. -/
theorem toggleTodo_twice_aux (todos : List Todo) (t : Todo)
    (hnd : (todos.map Todo.id).Nodup) (hmem : t ∈ todos)
    (hflip : flipRow t.id (toggledOf (flipRow t.id (toggledOf t) t)) (flipRow t.id (toggledOf t) t) = t) :
    ∃ s₁ out₁ out₂, toggleTodo t.id todos = (s₁, Except.ok out₁) ∧
      toggleTodo t.id s₁ = (todos, Except.ok out₂) := by
  have e1 := toggleTodo_found todos t hnd hmem
  have hids : (todos.map (flipRow t.id (toggledOf t))).map Todo.id = todos.map Todo.id := by
    rw [List.map_map]
    exact List.map_congr_left (fun u _ => flipRow_id t.id (toggledOf t) u)
  have hnd1 : ((todos.map (flipRow t.id (toggledOf t))).map Todo.id).Nodup := by
    rw [hids]; exact hnd
  have hmem1 : flipRow t.id (toggledOf t) t ∈ todos.map (flipRow t.id (toggledOf t)) :=
    List.mem_map_of_mem (flipRow t.id (toggledOf t)) hmem
  have e2 := toggleTodo_found (todos.map (flipRow t.id (toggledOf t)))
    (flipRow t.id (toggledOf t) t) hnd1 hmem1
  rw [flipRow_id t.id (toggledOf t) t] at e2
  have hrestore : (todos.map (flipRow t.id (toggledOf t))).map
      (flipRow t.id (toggledOf (flipRow t.id (toggledOf t) t))) = todos := by
    rw [List.map_map]
    have hpt : ∀ u ∈ todos,
        (flipRow t.id (toggledOf (flipRow t.id (toggledOf t) t)) ∘ flipRow t.id (toggledOf t)) u = u := by
      intro u hu
      by_cases h : u.id = t.id
      · have hut : u = t := todo_id_injective todos hnd hu hmem h
        subst hut
        simpa [Function.comp] using hflip
      · simp [Function.comp, flipRow, h]
    rw [List.map_congr_left hpt, List.map_id']
  exact ⟨_, _, _, e1, by rw [e2, hrestore]⟩

/-- Claim C4: for every store state with pairwise-distinct ids and every
todo `t` present in it whose `completed` field holds a 0/1 boolean
encoding (the only values the system ever writes), toggling `t.id` twice
succeeds both times and returns the store to its original contents — in
particular the row regains its original `completed` value. -/
theorem toggleTodo_twice_restores (todos : List Todo) (t : Todo)
    (hnd : (todos.map Todo.id).Nodup) (hmem : t ∈ todos)
    (hc : t.completed = some 0 ∨ t.completed = some 1) :
    ∃ s₁ out₁ out₂, toggleTodo t.id todos = (s₁, Except.ok out₁) ∧
      toggleTodo t.id s₁ = (todos, Except.ok out₂) := by
  apply toggleTodo_twice_aux todos t hnd hmem
  obtain ⟨tid, ttitle, tc⟩ := t
  rcases hc with hc | hc <;> simp only at hc <;> subst hc <;> simp [flipRow, toggledOf]

/-- Witness for claim C4 at a concrete one-row store. -/
theorem toggleTodo_twice_restores_witness :
    ∃ s₁ out₁ out₂, toggleTodo todo0.id [todo0] = (s₁, Except.ok out₁) ∧
      toggleTodo todo0.id s₁ = ([todo0], Except.ok out₂) :=
  toggleTodo_twice_restores [todo0] todo0 (by decide) (by decide) (Or.inl rfl)

/-- Claim C10: for every store state and id present in it, `toggleTodo`
only modifies the `completed` field of rows carrying that id: every
position keeps its id and title, and every row whose id differs from the
toggled id is completely unchanged. -/
theorem toggleTodo_frame (todos : List Todo) (i : Int)
    (hpres : ∃ t ∈ todos, t.id = i) :
    ((toggleTodo i todos).1).length = todos.length ∧
    (∀ k : Nat, (((toggleTodo i todos).1).get? k).map Todo.id = (todos.get? k).map Todo.id ∧
      (((toggleTodo i todos).1).get? k).map Todo.title = (todos.get? k).map Todo.title) ∧
    (∀ k : Nat, ∀ u : Todo, todos.get? k = some u → u.id ≠ i →
      ((toggleTodo i todos).1).get? k = some u) := by
  clear hpres
  cases hfind : todos.find? (fun u => u.id = i) with
  | none =>
    unfold toggleTodo
    rw [hfind]
    exact ⟨rfl, fun k => ⟨rfl, rfl⟩, fun k u hu _ => hu⟩
  | some cur =>
    unfold toggleTodo
    rw [hfind]
    refine ⟨List.length_map _ _, fun k => ?_, fun k u hu hne => ?_⟩
    · rw [List.get?_map]
      cases todos.get? k with
      | none => exact ⟨rfl, rfl⟩
      | some u =>
        by_cases h : u.id = i <;> simp [h]
    · rw [List.get?_map, hu]
      simp [hne]

/-- Witness for claim C10 at a concrete one-row store. -/
theorem toggleTodo_frame_witness :
    ((toggleTodo todo0.id [todo0]).1).length = [todo0].length ∧
    (∀ k : Nat, (((toggleTodo todo0.id [todo0]).1).get? k).map Todo.id =
        ([todo0].get? k).map Todo.id ∧
      (((toggleTodo todo0.id [todo0]).1).get? k).map Todo.title =
        ([todo0].get? k).map Todo.title) ∧
    (∀ k : Nat, ∀ u : Todo, [todo0].get? k = some u → u.id ≠ todo0.id →
      ((toggleTodo todo0.id [todo0]).1).get? k = some u) :=
  toggleTodo_frame [todo0] todo0.id ⟨todo0, by decide, rfl⟩

/-! ## The passengers table (`schema.ts`) and `GET_PASSENGERS` (`tools.ts`) -/

/-- A row of the `passengers` table of `server/schema.ts` (the canonical
schema variant used by `server/tools.ts`). -/
structure Passenger where
  id : Int
  firstName : String
  lastName : String
  email : String
  phone : Option String
  passportNumber : Option String
  nationality : Option String
  dateOfBirth : Option String
  seatNumber : Option String
  flightNumber : String
  departureCity : String
  arrivalCity : String
  departureDate : String
  ticketClass : Option String
  price : Option String
  status : Option String
  createdAt : Option String
deriving Repr, DecidableEq

/-- Input of `GET_PASSENGERS`: five optional equality filters and an
optional result limit.  The limit is modelled as a natural number (the
zod schema admits arbitrary numbers, but the spec treats the limit as a
result-count cap). -/
structure GetPassengersInput where
  flightNumber : Option String
  departureCity : Option String
  arrivalCity : Option String
  ticketClass : Option String
  status : Option String
  limit : Option Nat
deriving Repr, DecidableEq

/-- Output of `GET_PASSENGERS`. -/
structure GetPassengersOutput where
  passengers : List Passenger
  totalCount : Nat
  message : String
deriving Repr, DecidableEq

/-- One in-memory filter step over a non-nullable text column:
`if (context.x) passengers = passengers.filter(p => p.x === context.x)`.
A supplied empty string is falsy, so the filter is skipped. -/
def applyStrFilter (f : Option String) (key : Passenger → String)
    (ps : List Passenger) : List Passenger :=
  match f with
  | none => ps
  | some v => if v = "" then ps else ps.filter (fun p => key p = v)

/-- One in-memory filter step over a nullable text column. -/
def applyOptFilter (f : Option String) (key : Passenger → Option String)
    (ps : List Passenger) : List Passenger :=
  match f with
  | none => ps
  | some v => if v = "" then ps else ps.filter (fun p => key p = some v)

/-- The filter pipeline of `GET_PASSENGERS`, in source order: flight
number, departure city, arrival city, ticket class, status. -/
def filterPassengers (inp : GetPassengersInput) (rows : List Passenger) : List Passenger :=
  applyOptFilter inp.status Passenger.status
    (applyOptFilter inp.ticketClass Passenger.ticketClass
      (applyStrFilter inp.arrivalCity Passenger.arrivalCity
        (applyStrFilter inp.departureCity Passenger.departureCity
          (applyStrFilter inp.flightNumber Passenger.flightNumber rows))))

/-- `if (context.limit) passengers = passengers.slice(0, context.limit)`:
a limit of `0` is falsy, so no truncation happens. -/
def truncateLimit (limit : Option Nat) (ps : List Passenger) : List Passenger :=
  match limit with
  | none => ps
  | some n => if n = 0 then ps else ps.take n

/-- `GET_PASSENGERS` (`tools.ts`): read all rows, filter in memory, slice
to the limit, and return the remaining rows together with their count. -/
def getPassengers (inp : GetPassengersInput) (rows : List Passenger) : GetPassengersOutput :=
  { passengers := truncateLimit inp.limit (filterPassengers inp rows)
    totalCount := (truncateLimit inp.limit (filterPassengers inp rows)).length
    message := "Retrieved " ++
      toString (truncateLimit inp.limit (filterPassengers inp rows)).length ++
      " passengers from database" }

/-- A row satisfies a supplied equality filter on a non-nullable column.
A filter that is absent — or supplied as the empty string, which the
JavaScript truthiness test treats as absent — constrains nothing. -/
def strFilterOk (f : Option String) (field : String) : Prop :=
  ∀ v, f = some v → v ≠ "" → field = v

/-- A row satisfies a supplied equality filter on a nullable column. -/
def optFilterOk (f : Option String) (field : Option String) : Prop :=
  ∀ v, f = some v → v ≠ "" → field = some v

/-- A row satisfies all five supplied equality filters of
`GET_PASSENGERS`. -/
def matchesFilters (inp : GetPassengersInput) (p : Passenger) : Prop :=
  strFilterOk inp.flightNumber p.flightNumber ∧
  strFilterOk inp.departureCity p.departureCity ∧
  strFilterOk inp.arrivalCity p.arrivalCity ∧
  optFilterOk inp.ticketClass p.ticketClass ∧
  optFilterOk inp.status p.status

/-- Membership in one non-nullable filter step. -/
theorem mem_applyStrFilter {f : Option String} {key : Passenger → String}
    {ps : List Passenger} {p : Passenger} (h : p ∈ applyStrFilter f key ps) :
    p ∈ ps ∧ strFilterOk f (key p) := by
  cases f with
  | none => exact ⟨h, fun v hv => nomatch hv⟩
  | some v =>
    by_cases hv : v = ""
    · rw [applyStrFilter, if_pos hv] at h
      refine ⟨h, fun v2 hv2 hne => ?_⟩
      injection hv2 with he
      exact absurd (he ▸ hv) hne
    · rw [applyStrFilter, if_neg hv] at h
      have h2 := List.mem_filter.mp h
      refine ⟨h2.1, fun v2 hv2 _ => ?_⟩
      injection hv2 with he
      subst he
      exact of_decide_eq_true h2.2

/-- Membership in one nullable filter step. -/
theorem mem_applyOptFilter {f : Option String} {key : Passenger → Option String}
    {ps : List Passenger} {p : Passenger} (h : p ∈ applyOptFilter f key ps) :
    p ∈ ps ∧ optFilterOk f (key p) := by
  cases f with
  | none => exact ⟨h, fun v hv => nomatch hv⟩
  | some v =>
    by_cases hv : v = ""
    · rw [applyOptFilter, if_pos hv] at h
      refine ⟨h, fun v2 hv2 hne => ?_⟩
      injection hv2 with he
      exact absurd (he ▸ hv) hne
    · rw [applyOptFilter, if_neg hv] at h
      have h2 := List.mem_filter.mp h
      refine ⟨h2.1, fun v2 hv2 _ => ?_⟩
      injection hv2 with he
      subst he
      exact of_decide_eq_true h2.2

/-- Rows surviving the full filter pipeline are stored rows satisfying
all supplied filters. -/
theorem mem_filterPassengers {inp : GetPassengersInput} {rows : List Passenger}
    {p : Passenger} (h : p ∈ filterPassengers inp rows) :
    p ∈ rows ∧ matchesFilters inp p := by
  unfold filterPassengers at h
  obtain ⟨h, h5⟩ := mem_applyOptFilter h
  obtain ⟨h, h4⟩ := mem_applyOptFilter h
  obtain ⟨h, h3⟩ := mem_applyStrFilter h
  obtain ⟨h, h2⟩ := mem_applyStrFilter h
  obtain ⟨h, h1⟩ := mem_applyStrFilter h
  exact ⟨h, h1, h2, h3, h4, h5⟩

/-- Claim C5: for every store state and filter input, the rows returned
by `getPassengers` are stored rows satisfying all supplied equality
filters; a supplied limit `N ≠ 0` caps the result at `N` rows; and a
limit of `0` or an absent limit performs no truncation (the result is
the whole filtered list). -/
theorem getPassengers_limit_filter_spec (rows : List Passenger) (inp : GetPassengersInput) :
    (∀ p ∈ (getPassengers inp rows).passengers, p ∈ rows ∧ matchesFilters inp p) ∧
    (∀ n : Nat, inp.limit = some n → n ≠ 0 →
      (getPassengers inp rows).passengers.length ≤ n) ∧
    ((inp.limit = none ∨ inp.limit = some 0) →
      (getPassengers inp rows).passengers = filterPassengers inp rows) := by
  refine ⟨?_, ?_, ?_⟩
  · intro p hp
    apply mem_filterPassengers
    have hp2 : p ∈ truncateLimit inp.limit (filterPassengers inp rows) := hp
    revert hp2
    cases hl : inp.limit with
    | none => exact fun hp2 => hp2
    | some n =>
      by_cases hn : n = 0
      · rw [truncateLimit, if_pos hn]
        exact fun hp2 => hp2
      · rw [truncateLimit, if_neg hn]
        exact List.mem_of_mem_take
  · intro n hn hne
    have : (getPassengers inp rows).passengers =
        (filterPassengers inp rows).take n := by
      show truncateLimit inp.limit (filterPassengers inp rows) = _
      rw [hn, truncateLimit, if_neg hne]
    rw [this, List.length_take]
    exact Nat.min_le_left _ _
  · rintro (h | h) <;>
      · show truncateLimit inp.limit (filterPassengers inp rows) = _
        rw [h]
        rfl

/-- A sample passenger row used to instantiate the passenger claims. -/
def pA : Passenger :=
  { id := 1, firstName := "Joao", lastName := "Silva", email := "joao.silva@email.com",
    phone := none, passportNumber := none, nationality := none, dateOfBirth := none,
    seatNumber := none, flightNumber := "LA1234", departureCity := "Sao Paulo",
    arrivalCity := "Los Angeles", departureDate := "2024-01-15",
    ticketClass := some "economy", price := some "2500.00", status := some "confirmed",
    createdAt := some "CURRENT_TIMESTAMP" }

/-- A second sample passenger row. -/
def pB : Passenger :=
  { pA with id := 2, ticketClass := some "business", price := some "4500.00" }

/-- A filter input supplying only `limit := 1`. -/
def inpLimitOne : GetPassengersInput :=
  { flightNumber := none, departureCity := none, arrivalCity := none,
    ticketClass := none, status := none, limit := some 1 }

/-- A filter input supplying a status filter and `limit := 1`. -/
def inpStatusConfirmed : GetPassengersInput :=
  { flightNumber := none, departureCity := none, arrivalCity := none,
    ticketClass := none, status := some "confirmed", limit := some 1 }

/-- A filter input supplying nothing at all. -/
def inpNoLimit : GetPassengersInput :=
  { flightNumber := none, departureCity := none, arrivalCity := none,
    ticketClass := none, status := none, limit := none }

/-- Witness for claim C5 at a concrete store and inputs. -/
theorem getPassengers_limit_filter_spec_witness :
    (pA ∈ [pA, pB] ∧ matchesFilters inpStatusConfirmed pA) ∧
    (getPassengers inpStatusConfirmed [pA, pB]).passengers.length ≤ 1 ∧
    (getPassengers inpNoLimit [pA, pB]).passengers = filterPassengers inpNoLimit [pA, pB] :=
  ⟨(getPassengers_limit_filter_spec [pA, pB] inpStatusConfirmed).1 pA (by decide),
   (getPassengers_limit_filter_spec [pA, pB] inpStatusConfirmed).2.1 1 rfl (by decide),
   (getPassengers_limit_filter_spec [pA, pB] inpNoLimit).2.2 (Or.inl rfl)⟩

/-- Claim C1 counterexample: with two stored rows, no filters and
`limit := 1`, `getPassengers` reports `totalCount = 1` although two rows
satisfy all (zero) supplied filters — the count is taken after
truncation, not after filtering alone. -/
theorem getPassengers_totalCount_counterexample :
    (getPassengers inpLimitOne [pA, pB]).totalCount = 1 ∧
    (filterPassengers inpLimitOne [pA, pB]).length = 2 := by decide

/-- Claim C1 (amended): `totalCount` equals the number of rows actually
returned, i.e. the count after filtering and truncation; it equals the
filtered count whenever the limit is absent or `0` (no truncation). -/
theorem getPassengers_totalCount_after_truncation (rows : List Passenger)
    (inp : GetPassengersInput) :
    (getPassengers inp rows).totalCount = (getPassengers inp rows).passengers.length ∧
    ((inp.limit = none ∨ inp.limit = some 0) →
      (getPassengers inp rows).totalCount = (filterPassengers inp rows).length) := by
  refine ⟨rfl, ?_⟩
  rintro (h | h) <;>
    · show (truncateLimit inp.limit (filterPassengers inp rows)).length = _
      rw [h]
      rfl

/-- Witness for the amended claim C1 at a concrete store and input. -/
theorem getPassengers_totalCount_after_truncation_witness :
    (getPassengers inpNoLimit [pA, pB]).totalCount =
      (filterPassengers inpNoLimit [pA, pB]).length :=
  (getPassengers_totalCount_after_truncation [pA, pB] inpNoLimit).2 (Or.inl rfl)

/-! ## `CLEAR_DATABASE` (`schema.ts`) -/

/-- Output of `CLEAR_DATABASE`. -/
structure ClearResult where
  success : Bool
  deletedCount : Nat
  message : String
deriving Repr, DecidableEq

/-- `CLEAR_DATABASE` (`schema.ts`): count the rows, return a no-op
success on an empty table, otherwise delete everything and report the
count.  The whole body runs inside `try/catch`; the two parameters carry
the message of an error thrown by the initial select or by the delete
statement (`none` = the statement succeeds), and any thrown error is
converted into a `{success := false, deletedCount := 0}` result instead
of propagating. -/
def clearDatabase (selectErr deleteErr : Option String) (store : List Passenger) :
    List Passenger × ClearResult :=
  match selectErr with
  | some m =>
    (store, { success := false, deletedCount := 0,
              message := "Error clearing database: " ++ m })
  | none =>
    if store.length = 0 then
      (store, { success := true, deletedCount := 0, message := "Database is already empty" })
    else
      match deleteErr with
      | some m =>
        (store, { success := false, deletedCount := 0,
                  message := "Error clearing database: " ++ m })
      | none =>
        ([], { success := true, deletedCount := store.length,
               message := "Successfully cleared database. Deleted " ++
                 toString store.length ++ " passengers." })

/-- Claim C6: `clearDatabase` is a total function (it never propagates a
store error).  On an empty store with a working select it returns the
no-op success `{success := true, deletedCount := 0}`; when both store
operations work it empties the table and reports the old row count with
`success := true`; and whenever it reports `success := false` (exactly
the swallowed store-error cases) it returns `deletedCount = 0` with the
store unchanged, rather than propagating the error. -/
theorem clearDatabase_total_spec (selectErr deleteErr : Option String)
    (store : List Passenger) :
    (selectErr = none → store = [] →
      clearDatabase selectErr deleteErr store =
        ([], { success := true, deletedCount := 0, message := "Database is already empty" })) ∧
    (selectErr = none → deleteErr = none →
      (clearDatabase selectErr deleteErr store).1 = [] ∧
      (clearDatabase selectErr deleteErr store).2.success = true ∧
      (clearDatabase selectErr deleteErr store).2.deletedCount = store.length) ∧
    ((clearDatabase selectErr deleteErr store).2.success = false →
      (clearDatabase selectErr deleteErr store).1 = store ∧
      (clearDatabase selectErr deleteErr store).2.deletedCount = 0) := by
  refine ⟨?_, ?_, ?_⟩
  · rintro rfl rfl
    rfl
  · rintro rfl rfl
    cases store with
    | nil => exact ⟨rfl, rfl, rfl⟩
    | cons a l =>
      refine ⟨?_, ?_, ?_⟩ <;>
        · show _ = _
          rw [clearDatabase]
          simp
  · intro hfail
    cases selectErr with
    | some m => exact ⟨rfl, rfl⟩
    | none =>
      by_cases hz : store.length = 0
      · simp [clearDatabase, hz] at hfail
      · cases deleteErr with
        | some m =>
          simp only [clearDatabase]
          rw [if_neg hz]
          exact ⟨rfl, rfl⟩
        | none =>
          simp [clearDatabase, hz] at hfail

/-- Witness for claim C6 at concrete stores and error outcomes. -/
theorem clearDatabase_total_spec_witness :
    (clearDatabase none none ([] : List Passenger) =
      ([], { success := true, deletedCount := 0, message := "Database is already empty" })) ∧
    ((clearDatabase none none [pA]).1 = [] ∧
      (clearDatabase none none [pA]).2.success = true ∧
      (clearDatabase none none [pA]).2.deletedCount = [pA].length) ∧
    ((clearDatabase (some "boom") none [pA]).1 = [pA] ∧
      (clearDatabase (some "boom") none [pA]).2.deletedCount = 0) :=
  ⟨(clearDatabase_total_spec none none []).1 rfl rfl,
   (clearDatabase_total_spec none none [pA]).2.1 rfl rfl,
   (clearDatabase_total_spec (some "boom") none [pA]).2.2 rfl⟩

/-! ## `GET_PASSENGER_STATS` (`tools.ts`) -/

/-- The grouping key `passenger.ticketClass || "unknown"`. -/
def ticketKey (p : Passenger) : String := jsOrOptStr p.ticketClass "unknown"

/-- The grouping key `passenger.status || "unknown"`. -/
def statusKey (p : Passenger) : String := jsOrOptStr p.status "unknown"

/-- The grouping key `passenger.flightNumber || "unknown"`. -/
def flightKey (p : Passenger) : String := jsOrStr p.flightNumber "unknown"

/-- The price contribution of one row:
`if (passenger.price) { const price = parseFloat(passenger.price); if (!isNaN(price)) ... }`.
`none` when the price is null, empty, or does not parse. -/
def priceOf (p : Passenger) : Option Rat :=
  match p.price with
  | none => none
  | some s => if s = "" then none else jsParseFloat s

/-- The accumulator of the statistics loop: three grouping records (a
record is modelled as its key-to-count function, missing keys read 0)
and the running price sum and count. -/
structure StatsAcc where
  byTicketClass : String → Nat
  byStatus : String → Nat
  byFlight : String → Nat
  totalPrice : Rat
  validPrices : Nat

/-- The empty grouping record `{}`. -/
def emptyTable : String → Nat := fun _ => 0

/-- `tbl[k] = (tbl[k] || 0) + 1`. -/
def recordIncr (tbl : String → Nat) (k : String) : String → Nat :=
  fun q => if q = k then tbl k + 1 else tbl q

/-- The initial accumulator of the statistics loop. -/
def statsAcc0 : StatsAcc :=
  { byTicketClass := emptyTable, byStatus := emptyTable, byFlight := emptyTable,
    totalPrice := 0, validPrices := 0 }

/-- One iteration of the statistics loop over a passenger row. -/
def statsStep (acc : StatsAcc) (p : Passenger) : StatsAcc :=
  let acc2 : StatsAcc :=
    { acc with
      byTicketClass := recordIncr acc.byTicketClass (ticketKey p)
      byStatus := recordIncr acc.byStatus (statusKey p)
      byFlight := recordIncr acc.byFlight (flightKey p) }
  match priceOf p with
  | none => acc2
  | some q => { acc2 with totalPrice := acc2.totalPrice + q, validPrices := acc2.validPrices + 1 }

/-- Output of `GET_PASSENGER_STATS`. -/
structure PassengerStats where
  totalPassengers : Nat
  byTicketClass : String → Nat
  byStatus : String → Nat
  byFlight : String → Nat
  averagePrice : Rat
  message : String

/-- `GET_PASSENGER_STATS` (`tools.ts`): early return on an empty table,
otherwise one scan accumulating the three grouping records and the
parseable prices, ending with
`averagePrice = validPrices > 0 ? totalPrice / validPrices : 0` rounded
to two decimal places. -/
def getPassengerStats (rows : List Passenger) : PassengerStats :=
  if rows.length = 0 then
    { totalPassengers := 0, byTicketClass := emptyTable, byStatus := emptyTable,
      byFlight := emptyTable, averagePrice := 0,
      message := "No passengers found in database" }
  else
    let acc := rows.foldl statsStep statsAcc0
    let averagePrice : Rat :=
      if acc.validPrices > 0 then acc.totalPrice / (acc.validPrices : Rat) else 0
    { totalPassengers := rows.length, byTicketClass := acc.byTicketClass,
      byStatus := acc.byStatus, byFlight := acc.byFlight,
      averagePrice := round2 averagePrice,
      message := "Statistics calculated for " ++ toString rows.length ++ " passengers" }

/-- The list of prices that the statistics loop counts: truthy price
strings on which `parseFloat` succeeds. -/
def parseablePrices (rows : List Passenger) : List Rat :=
  rows.filterMap priceOf

/-- `statsStep` updates the ticket-class record by one increment. -/
theorem statsStep_byTicketClass (acc : StatsAcc) (p : Passenger) :
    (statsStep acc p).byTicketClass = recordIncr acc.byTicketClass (ticketKey p) := by
  simp only [statsStep]
  cases priceOf p <;> rfl

/-- `statsStep` updates the status record by one increment. -/
theorem statsStep_byStatus (acc : StatsAcc) (p : Passenger) :
    (statsStep acc p).byStatus = recordIncr acc.byStatus (statusKey p) := by
  simp only [statsStep]
  cases priceOf p <;> rfl

/-- `statsStep` updates the flight record by one increment. -/
theorem statsStep_byFlight (acc : StatsAcc) (p : Passenger) :
    (statsStep acc p).byFlight = recordIncr acc.byFlight (flightKey p) := by
  simp only [statsStep]
  cases priceOf p <;> rfl

/-- `statsStep` on a row without a countable price leaves the price sums
alone. -/
theorem statsStep_price_none (acc : StatsAcc) (p : Passenger) (h : priceOf p = none) :
    (statsStep acc p).totalPrice = acc.totalPrice ∧
    (statsStep acc p).validPrices = acc.validPrices := by
  simp [statsStep, h]

/-- `statsStep` on a row with a countable price adds it and counts it. -/
theorem statsStep_price_some (acc : StatsAcc) (p : Passenger) (q : Rat)
    (h : priceOf p = some q) :
    (statsStep acc p).totalPrice = acc.totalPrice + q ∧
    (statsStep acc p).validPrices = acc.validPrices + 1 := by
  simp [statsStep, h]

/-- The fold of the statistics loop turns each grouping record into the
per-key row count. -/
theorem fold_table (proj : StatsAcc → String → Nat) (key : Passenger → String)
    (hstep : ∀ acc p, proj (statsStep acc p) = recordIncr (proj acc) (key p)) :
    ∀ (rows : List Passenger) (acc : StatsAcc) (k : String),
      proj (rows.foldl statsStep acc) k =
        proj acc k + (rows.filter (fun p => key p = k)).length := by
  intro rows
  induction rows with
  | nil => intro acc k; simp
  | cons p ps ih =>
    intro acc k
    rw [List.foldl_cons, ih, hstep, List.filter_cons]
    unfold recordIncr
    by_cases hk : key p = k
    · subst hk
      simp
      omega
    · rw [if_neg (Ne.symm hk)]
      simp [hk]

/-- The fold of the statistics loop sums and counts exactly the
parseable prices. -/
theorem fold_price :
    ∀ (rows : List Passenger) (acc : StatsAcc),
      (rows.foldl statsStep acc).totalPrice = acc.totalPrice + (parseablePrices rows).sum ∧
      (rows.foldl statsStep acc).validPrices = acc.validPrices + (parseablePrices rows).length := by
  intro rows
  induction rows with
  | nil => intro acc; simp [parseablePrices]
  | cons p ps ih =>
    intro acc
    rw [List.foldl_cons]
    cases h : priceOf p with
    | none =>
      obtain ⟨ht, hv⟩ := ih (statsStep acc p)
      obtain ⟨ht2, hv2⟩ := statsStep_price_none acc p h
      constructor
      · rw [ht, ht2]
        simp [parseablePrices, List.filterMap_cons, h]
      · rw [hv, hv2]
        simp [parseablePrices, List.filterMap_cons, h]
    | some q =>
      obtain ⟨ht, hv⟩ := ih (statsStep acc p)
      obtain ⟨ht2, hv2⟩ := statsStep_price_some acc p q h
      constructor
      · rw [ht, ht2]
        simp only [parseablePrices, List.filterMap_cons, h, List.sum_cons]
        ring
      · rw [hv, hv2]
        simp only [parseablePrices, List.filterMap_cons, h, List.length_cons]
        omega

/-- Rounding zero to two decimal places gives zero. -/
theorem round2_zero : round2 0 = 0 := by
  norm_num [round2, jsRound]

/-- Claim C7: for every store state, `getPassengerStats` groups the rows
by ticket class, status and flight number, keying each row by the
string value of the field or `"unknown"` when the field is null or
empty; every non-parseable (or null/empty) price string is skipped
without error and without being counted; and the average price is the
sum of the parseable prices divided by their count, rounded to two
decimal places, or `0` when no parseable price exists. -/
theorem getPassengerStats_spec (rows : List Passenger) :
    (getPassengerStats rows).totalPassengers = rows.length ∧
    (∀ k, (getPassengerStats rows).byTicketClass k =
      (rows.filter (fun p => ticketKey p = k)).length) ∧
    (∀ k, (getPassengerStats rows).byStatus k =
      (rows.filter (fun p => statusKey p = k)).length) ∧
    (∀ k, (getPassengerStats rows).byFlight k =
      (rows.filter (fun p => flightKey p = k)).length) ∧
    (getPassengerStats rows).averagePrice =
      (if (parseablePrices rows).length = 0 then 0
       else round2 ((parseablePrices rows).sum / ((parseablePrices rows).length : Rat))) := by
  cases rows with
  | nil =>
    exact ⟨rfl, fun k => rfl, fun k => rfl, fun k => rfl, rfl⟩
  | cons p ps =>
    have hz : ¬ ((p :: ps).length = 0) := by simp
    refine ⟨?_, ?_, ?_, ?_, ?_⟩
    · simp [getPassengerStats, hz]
    · intro k
      simp only [getPassengerStats, if_neg hz]
      rw [fold_table (fun a => a.byTicketClass) ticketKey statsStep_byTicketClass]
      simp [statsAcc0, emptyTable]
    · intro k
      simp only [getPassengerStats, if_neg hz]
      rw [fold_table (fun a => a.byStatus) statusKey statsStep_byStatus]
      simp [statsAcc0, emptyTable]
    · intro k
      simp only [getPassengerStats, if_neg hz]
      rw [fold_table (fun a => a.byFlight) flightKey statsStep_byFlight]
      simp [statsAcc0, emptyTable]
    · simp only [getPassengerStats, if_neg hz]
      obtain ⟨ht, hv⟩ := fold_price (p :: ps) statsAcc0
      rw [ht, hv]
      simp only [statsAcc0, Rat.zero_add, Nat.zero_add, zero_add]
      by_cases hlen : (parseablePrices (p :: ps)).length = 0
      · rw [if_pos hlen, hlen]
        simpa using round2_zero
      · rw [if_neg hlen]
        have hpos : 0 < (parseablePrices (p :: ps)).length := Nat.pos_of_ne_zero hlen
        rw [if_pos hpos]

/-! ## CSV ingestion (`tools.ts`: IMPORT_PASSENGERS_FROM_CSV and POPULATE_TEST_DATA) -/

/-- The row object built from one CSV data line (the argument of
`db.insert(passengersTable).values(...)` in both ingestion tools). -/
structure PassengerInsert where
  firstName : String
  lastName : String
  email : String
  phone : Option String
  passportNumber : Option String
  nationality : Option String
  dateOfBirth : Option String
  seatNumber : Option String
  flightNumber : String
  departureCity : String
  arrivalCity : String
  departureDate : String
  ticketClass : Option String
  price : Option String
  status : Option String
deriving Repr, DecidableEq

/-- The fixed column-position mapping applied to one CSV line:
`const values = line.split(",")`, then `values[i] || ...` with `""` for
the non-nullable columns, `null` for the nullable ones and `"confirmed"`
for `status`. -/
def parsePassengerLine (line : String) : PassengerInsert :=
  let values := jsSplit ',' line
  { firstName := jsOrEmpty (values.get? 0)
    lastName := jsOrEmpty (values.get? 1)
    email := jsOrEmpty (values.get? 2)
    phone := jsOrNull (values.get? 3)
    passportNumber := jsOrNull (values.get? 4)
    nationality := jsOrNull (values.get? 5)
    dateOfBirth := jsOrNull (values.get? 6)
    seatNumber := jsOrNull (values.get? 7)
    flightNumber := jsOrEmpty (values.get? 8)
    departureCity := jsOrEmpty (values.get? 9)
    arrivalCity := jsOrEmpty (values.get? 10)
    departureDate := jsOrEmpty (values.get? 11)
    ticketClass := jsOrNull (values.get? 12)
    price := jsOrNull (values.get? 13)
    status := jsOrDefault (values.get? 14) "confirmed" }

/-- The CSV scan shared by both ingestion tools:
`csvContent.trim().split("\n")`, drop the header line, parse every line
whose trimmed content is non-empty (blank lines are skipped). -/
def parseCsvPassengers (csvContent : String) : List PassengerInsert :=
  let lines := jsSplit '\n' (jsTrim csvContent)
  let dataLines := lines.drop 1
  (dataLines.filter (fun l => jsTrim l ≠ "")).map parsePassengerLine

/-- Result shape shared by `IMPORT_PASSENGERS_FROM_CSV` and
`POPULATE_TEST_DATA`. -/
structure ImportResult where
  success : Bool
  importedCount : Nat
  message : String
deriving Repr, DecidableEq

/-- Id assigned to a freshly inserted passenger row. -/
def nextPassengerId (store : List Passenger) : Int :=
  (store.map Passenger.id).foldl max 0 + 1

/-- One `db.insert(passengersTable).values(...)` call: append the row,
materialising the id and `createdAt` column defaults. -/
def insertPassenger (store : List Passenger) (r : PassengerInsert) : List Passenger :=
  store ++
    [{ id := nextPassengerId store, firstName := r.firstName, lastName := r.lastName,
       email := r.email, phone := r.phone, passportNumber := r.passportNumber,
       nationality := r.nationality, dateOfBirth := r.dateOfBirth,
       seatNumber := r.seatNumber, flightNumber := r.flightNumber,
       departureCity := r.departureCity, arrivalCity := r.arrivalCity,
       departureDate := r.departureDate, ticketClass := r.ticketClass,
       price := r.price, status := r.status, createdAt := some "CURRENT_TIMESTAMP" }]

/-- `IMPORT_PASSENGERS_FROM_CSV` (`tools.ts`), on an execution in which
the store statements succeed: parse the CSV and insert each row
sequentially, reporting the count. -/
def importPassengersFromCSV (csvContent : String) (store : List Passenger) :
    List Passenger × ImportResult :=
  let newRows := parseCsvPassengers csvContent
  (newRows.foldl insertPassenger store,
   { success := true, importedCount := newRows.length,
     message := "Successfully imported " ++ toString newRows.length ++
       " passengers from CSV" })

/-- The sample CSV hard-coded in `POPULATE_TEST_DATA` (`tools.ts`): a
header line and ten passenger data lines. -/
def sampleCsvData : String :=
  "firstName,lastName,email,phone,passportNumber,nationality,dateOfBirth,seatNumber,flightNumber,departureCity,arrivalCity,departureDate,ticketClass,price,status\nJoão,Silva,joao.silva@email.com,+55 11 99999-1111,BR123456,brasileiro,1985-03-15,12A,LA1234,São Paulo,Los Angeles,2024-01-15,economy,2500.00,confirmed\nMaria,Santos,maria.santos@email.com,+55 21 88888-2222,BR789012,brasileira,1990-07-22,15B,LA1234,São Paulo,Los Angeles,2024-01-15,business,4500.00,confirmed\nCarlos,Oliveira,carlos.oliveira@email.com,+55 31 77777-3333,BR345678,brasileiro,1988-11-08,18C,LA1234,São Paulo,Los Angeles,2024-01-15,economy,2500.00,confirmed\nAna,Costa,ana.costa@email.com,+55 41 66666-4444,BR901234,brasileira,1992-04-30,22D,LA1234,São Paulo,Los Angeles,2024-01-15,economy,2500.00,confirmed\nPedro,Ferreira,pedro.ferreira@email.com,+55 51 55555-5555,BR567890,brasileiro,1983-09-12,25E,LA1234,São Paulo,Los Angeles,2024-01-15,first,6500.00,confirmed\nLucia,Ribeiro,lucia.ribeiro@email.com,+55 61 44444-6666,BR234567,brasileira,1987-12-05,28F,LA1234,São Paulo,Los Angeles,2024-01-15,economy,2500.00,confirmed\nRoberto,Almeida,roberto.almeida@email.com,+55 71 33333-7777,BR890123,brasileiro,1981-06-18,31G,LA1234,São Paulo,Los Angeles,2024-01-15,business,4500.00,confirmed\nFernanda,Lima,fernanda.lima@email.com,+55 81 22222-8888,BR456789,brasileira,1995-01-25,34H,LA1234,São Paulo,Los Angeles,2024-01-15,economy,2500.00,confirmed\nMarcos,Pereira,marcos.pereira@email.com,+55 91 11111-9999,BR012345,brasileiro,1986-08-14,37I,LA1234,São Paulo,Los Angeles,2024-01-15,economy,2500.00,confirmed\nJuliana,Martins,juliana.martins@email.com,+55 11 00000-0000,BR678901,brasileira,1993-05-20,40J,LA1234,São Paulo,Los Angeles,2024-01-15,business,4500.00,confirmed"

/-- `POPULATE_TEST_DATA` (`tools.ts`), on an execution in which the
store statements succeed: if `select().limit(1)` finds a row, return a
no-op success with `importedCount = 0`; otherwise parse the hard-coded
sample CSV and insert its rows sequentially. -/
def populateTestData (store : List Passenger) : List Passenger × ImportResult :=
  if (store.take 1).length > 0 then
    (store,
     { success := true, importedCount := 0,
       message := "Database already contains passenger data. Use GET_PASSENGERS to retrieve data." })
  else
    let newRows := parseCsvPassengers sampleCsvData
    (newRows.foldl insertPassenger store,
     { success := true, importedCount := newRows.length,
       message := "Successfully populated database with " ++ toString newRows.length ++
         " test passengers" })

/-- Sequential insertion adds exactly one row per parsed CSV row. -/
theorem length_foldl_insert (rs : List PassengerInsert) :
    ∀ store : List Passenger,
      (rs.foldl insertPassenger store).length = store.length + rs.length := by
  induction rs with
  | nil => intro store; simp
  | cons r rs ih =>
    intro store
    rw [List.foldl_cons, ih]
    simp [insertPassenger]
    omega

set_option maxRecDepth 100000 in
/-- Claim C3: `populateTestData` run on a store that already holds a
passenger row performs no insert and returns a no-op success with
`importedCount = 0`; consequently, for every starting store, the second
of two consecutive calls is exactly that no-op (so the row count is
never doubled). -/
theorem populateTestData_second_call_noop (store : List Passenger) :
    (store ≠ [] →
      populateTestData store =
        (store,
         { success := true, importedCount := 0,
           message := "Database already contains passenger data. Use GET_PASSENGERS to retrieve data." })) ∧
    populateTestData (populateTestData store).1 =
      ((populateTestData store).1,
       { success := true, importedCount := 0,
         message := "Database already contains passenger data. Use GET_PASSENGERS to retrieve data." }) := by
  have hnoop : ∀ s : List Passenger, s ≠ [] →
      populateTestData s =
        (s,
         { success := true, importedCount := 0,
           message := "Database already contains passenger data. Use GET_PASSENGERS to retrieve data." }) := by
    intro s hs
    have hpos : (s.take 1).length > 0 := by
      cases s with
      | nil => exact absurd rfl hs
      | cons a l => simp
    simp only [populateTestData]
    rw [if_pos hpos]
  refine ⟨hnoop store, ?_⟩
  apply hnoop
  by_cases h : store = []
  · subst h
    have hzero : ¬ ((([] : List Passenger).take 1).length > 0) := by simp
    have hfirst : (populateTestData ([] : List Passenger)).1 =
        (parseCsvPassengers sampleCsvData).foldl insertPassenger [] := by
      simp only [populateTestData]
      rw [if_neg hzero]
    rw [hfirst]
    have hten : (parseCsvPassengers sampleCsvData).length = 10 := by decide
    have hlen : ((parseCsvPassengers sampleCsvData).foldl insertPassenger []).length =
        ([] : List Passenger).length + (parseCsvPassengers sampleCsvData).length :=
      length_foldl_insert _ []
    rw [hten] at hlen
    intro hnil
    rw [hnil] at hlen
    simp at hlen
  · rw [hnoop store h]
    exact h

/-- Witness for claim C3 at a concrete non-empty store. -/
theorem populateTestData_second_call_noop_witness :
    populateTestData [pA] =
      ([pA],
       { success := true, importedCount := 0,
         message := "Database already contains passenger data. Use GET_PASSENGERS to retrieve data." }) :=
  (populateTestData_second_call_noop [pA]).1 (by decide)

/-- Claim C9 counterexample: parsing the two-column input
`"a,b\nx,y\n"` yields one row whose `status` column — an optional,
nullable column missing from the row — is filled with
`some "confirmed"`, not with `null` as the claim states for missing
optional columns. -/
theorem parseCsv_missing_status_counterexample :
    (parseCsvPassengers "a,b\nx,y\n").map PassengerInsert.status ≠ [none] ∧
    (parseCsvPassengers "a,b\nx,y\n").map PassengerInsert.status = [some "confirmed"] := by
  decide

/-- Claim C9 (amended): `parseCsv` on `"a,b\nx,y\n"` produces exactly one
row carrying `"x"` and `"y"` in its first two columns; blank
(whitespace-only) lines produce no row; and a row missing trailing
columns gets `null` for the missing nullable columns, the empty string
for the missing non-nullable columns — except `status`, which defaults
to `"confirmed"` when missing. -/
theorem parseCsv_example_blank_and_defaults :
    (parseCsvPassengers "a,b\nx,y\n" =
      [{ firstName := "x", lastName := "y", email := "", phone := none,
         passportNumber := none, nationality := none, dateOfBirth := none,
         seatNumber := none, flightNumber := "", departureCity := "",
         arrivalCity := "", departureDate := "", ticketClass := none,
         price := none, status := some "confirmed" }]) ∧
    (parseCsvPassengers "a,b\nx,y\n \nq,w" =
      [{ firstName := "x", lastName := "y", email := "", phone := none,
         passportNumber := none, nationality := none, dateOfBirth := none,
         seatNumber := none, flightNumber := "", departureCity := "",
         arrivalCity := "", departureDate := "", ticketClass := none,
         price := none, status := some "confirmed" },
       { firstName := "q", lastName := "w", email := "", phone := none,
         passportNumber := none, nationality := none, dateOfBirth := none,
         seatNumber := none, flightNumber := "", departureCity := "",
         arrivalCity := "", departureDate := "", ticketClass := none,
         price := none, status := some "confirmed" }]) ∧
    (∀ line : String,
      ((jsSplit ',' line).length ≤ 2 → (parsePassengerLine line).email = "") ∧
      ((jsSplit ',' line).length ≤ 3 → (parsePassengerLine line).phone = none) ∧
      ((jsSplit ',' line).length ≤ 4 → (parsePassengerLine line).passportNumber = none) ∧
      ((jsSplit ',' line).length ≤ 5 → (parsePassengerLine line).nationality = none) ∧
      ((jsSplit ',' line).length ≤ 6 → (parsePassengerLine line).dateOfBirth = none) ∧
      ((jsSplit ',' line).length ≤ 7 → (parsePassengerLine line).seatNumber = none) ∧
      ((jsSplit ',' line).length ≤ 8 → (parsePassengerLine line).flightNumber = "") ∧
      ((jsSplit ',' line).length ≤ 9 → (parsePassengerLine line).departureCity = "") ∧
      ((jsSplit ',' line).length ≤ 10 → (parsePassengerLine line).arrivalCity = "") ∧
      ((jsSplit ',' line).length ≤ 11 → (parsePassengerLine line).departureDate = "") ∧
      ((jsSplit ',' line).length ≤ 12 → (parsePassengerLine line).ticketClass = none) ∧
      ((jsSplit ',' line).length ≤ 13 → (parsePassengerLine line).price = none) ∧
      ((jsSplit ',' line).length ≤ 14 → (parsePassengerLine line).status = some "confirmed")) := by
  refine ⟨by decide, by decide, ?_⟩
  intro line
  refine ⟨?_, ?_, ?_, ?_, ?_, ?_, ?_, ?_, ?_, ?_, ?_, ?_, ?_⟩
  · intro h
    show jsOrEmpty ((jsSplit ',' line).get? 2) = ""
    rw [List.get?_eq_none.mpr h]
    rfl
  · intro h
    show jsOrNull ((jsSplit ',' line).get? 3) = none
    rw [List.get?_eq_none.mpr h]
    rfl
  · intro h
    show jsOrNull ((jsSplit ',' line).get? 4) = none
    rw [List.get?_eq_none.mpr h]
    rfl
  · intro h
    show jsOrNull ((jsSplit ',' line).get? 5) = none
    rw [List.get?_eq_none.mpr h]
    rfl
  · intro h
    show jsOrNull ((jsSplit ',' line).get? 6) = none
    rw [List.get?_eq_none.mpr h]
    rfl
  · intro h
    show jsOrNull ((jsSplit ',' line).get? 7) = none
    rw [List.get?_eq_none.mpr h]
    rfl
  · intro h
    show jsOrEmpty ((jsSplit ',' line).get? 8) = ""
    rw [List.get?_eq_none.mpr h]
    rfl
  · intro h
    show jsOrEmpty ((jsSplit ',' line).get? 9) = ""
    rw [List.get?_eq_none.mpr h]
    rfl
  · intro h
    show jsOrEmpty ((jsSplit ',' line).get? 10) = ""
    rw [List.get?_eq_none.mpr h]
    rfl
  · intro h
    show jsOrEmpty ((jsSplit ',' line).get? 11) = ""
    rw [List.get?_eq_none.mpr h]
    rfl
  · intro h
    show jsOrNull ((jsSplit ',' line).get? 12) = none
    rw [List.get?_eq_none.mpr h]
    rfl
  · intro h
    show jsOrNull ((jsSplit ',' line).get? 13) = none
    rw [List.get?_eq_none.mpr h]
    rfl
  · intro h
    show jsOrDefault ((jsSplit ',' line).get? 14) "confirmed" = some "confirmed"
    rw [List.get?_eq_none.mpr h]
    rfl

/-- Witness for the amended claim C9 at a concrete two-column line. -/
theorem parseCsv_example_blank_and_defaults_witness :
    (parsePassengerLine "x,y").phone = none ∧
    (parsePassengerLine "x,y").status = some "confirmed" :=
  ⟨(parseCsv_example_blank_and_defaults.2.2 "x,y").2.1 (by decide),
   (parseCsv_example_blank_and_defaults.2.2 "x,y").2.2.2.2.2.2.2.2.2.2.2.2 (by decide)⟩
